import Mathlib

/-!
Verification development for the site-reporter voice-memo reporting pipeline.

The definitions below are a shallow embedding of the backend services:
template classification and LLM field extraction
(src/backend/app/services/template.py), plaintext report rendering
(src/backend/app/services/report.py), DOCX table filling
(src/backend/app/services/docx_generator.py) and the REST route validation
logic (src/backend/app/routers/pipeline.py).  External services (speech to
text, chat completion) are modelled as parameters: the LLM call together
with the JSON decoding of its response is an `Except Unit FieldMap` value,
and the wall clock is an explicit `Now` record.  Python strings are
modelled by `String`; Python dicts of strings (which preserve insertion
order) are modelled by association lists.
-/

/-- Model of Python `str.lower()` (ASCII case folding). -/
def pyLower (s : String) : String := ⟨s.data.map Char.toLower⟩

/-- Model of Python `str.upper()` (ASCII case folding). -/
def pyUpper (s : String) : String := ⟨s.data.map Char.toUpper⟩

/-- Model of Python `str.strip()`: drop leading and trailing whitespace. -/
def pyStrip (s : String) : String :=
  ⟨((s.data.dropWhile Char.isWhitespace).reverse.dropWhile Char.isWhitespace).reverse⟩

/-- `listContains needle hay` decides whether `needle` occurs as a
contiguous run inside `hay`. -/
def listContains (needle : List Char) : List Char → Bool
  | [] => needle.isEmpty
  | c :: rest => needle.isPrefixOf (c :: rest) || listContains needle rest

/-- Model of the Python substring test `needle in hay`. -/
def strContains (hay needle : String) : Bool := listContains needle.data hay.data

/-- The wall clock instant, standing for `datetime.now()`. -/
structure Now where
  day : Nat
  month : Nat
  year : Nat
  hour : Nat
  minute : Nat
  deriving DecidableEq

/-- The decimal digit character for `n % 10`. -/
def digitChar (n : Nat) : Char := Char.ofNat (48 + n % 10)

/-- Two-digit zero-padded rendering, as produced by strftime `%d`, `%m`,
`%H`, `%M` on in-range values. -/
def pad2 (n : Nat) : String := ⟨[digitChar (n / 10), digitChar n]⟩

/-- Four-digit zero-padded rendering, as produced by strftime `%Y` on
common-era years. -/
def pad4 (n : Nat) : String :=
  ⟨[digitChar (n / 1000), digitChar (n / 100), digitChar (n / 10), digitChar n]⟩

/-- Model of `now.strftime("%d/%m/%Y")`. -/
def dateStr (now : Now) : String := pad2 now.day ++ "/" ++ pad2 now.month ++ "/" ++ pad4 now.year

/-- Model of `now.strftime("%H:%M")`. -/
def timeStr (now : Now) : String := pad2 now.hour ++ ":" ++ pad2 now.minute

/-- A Python `Dict[str, str]` in insertion order. -/
abbrev FieldMap := List (String × String)

/-- Model of `k in fields` for a Python dict. -/
def hasKey (m : FieldMap) (k : String) : Bool := m.any (fun p => p.1 == k)

/-- Model of `fields.get(k, d)` (first occurrence wins). -/
def getD (m : FieldMap) (k d : String) : String :=
  match m with
  | [] => d
  | p :: rest => if p.1 == k then p.2 else getD rest k d

/-- Model of the Python dict assignment `fields[k] = v`: replace the first
binding for `k`, or append a new binding when `k` is absent. -/
def setK (m : FieldMap) (k v : String) : FieldMap :=
  match m with
  | [] => [(k, v)]
  | p :: rest => if p.1 == k then (k, v) :: rest else p :: setK rest k v

/-- The incident keyword set of `infer_template` (template.py line 18). -/
def incident_keywords : List String :=
  ["problème", "problem", "incident", "souci", "défaillance", "panne", "fuite", "casse"]

/-- The safety-tour keyword set of `infer_template` (template.py line 35). -/
def security_keywords : List String :=
  ["tour", "sécurité", "security", "inspection", "vendredi", "friday", "fissure", "béton"]

/-- The task-assignment keyword set of `infer_template` (template.py line 47). -/
def task_keywords : List String :=
  ["tâche", "task", "assigné", "assigned", "mission", "travail"]

/-- Field schema of the `probleme_decouverte` template: field name paired
with the prompt description (template.py lines 20-33). -/
def incident_schema : List (String × String) :=
  [("Nom du chantier", "nom du chantier ou projet si mentionné"),
   ("Nom de l\x27incident", "titre ou nom court de l\x27incident"),
   ("Emetteur du signalement", "nom de la personne qui signale l\x27incident"),
   ("Date de découverte", "date de découverte de l\x27incident (format JJ/MM/AAAA)"),
   ("Heure de découverte", "heure de découverte de l\x27incident (format HH:MM)"),
   ("Adresse", "adresse ou localisation précise de l\x27incident"),
   ("Nature de l\x27incident", "type ou catégorie de l\x27incident (électricité, plomberie, structure, etc.)"),
   ("Description de l\x27incident", "description détaillée de l\x27incident observé"),
   ("Risques identifiés", "risques potentiels liés à cet incident"),
   ("Actions à réaliser", "actions correctives ou mesures à prendre"),
   ("Niveau d\x27urgence", "niveau d\x27urgence (Faible/Moyen/Élevé/Critique)"),
   ("Personnes prévenues", "liste des personnes ou services informés")]

/-- Field schema of the `tour_securite` template (template.py lines 37-45). -/
def tour_securite_schema : List (String × String) :=
  [("Date", "date mentionnée (format JJ/MM/AAAA)"),
   ("Heure", "heure mentionnée si disponible"),
   ("Opérateur", "nom de la personne si mentionné, sinon \x27Marie Martin - Responsable sécurité\x27"),
   ("Zone inspectée", "bâtiment, étage, ou zone inspectée"),
   ("Observations", "résumé des observations principales"),
   ("Non-conformités", "problèmes détectés ou \x27Aucune\x27 si tout va bien"),
   ("Actions correctives", "actions recommandées pour corriger les non-conformités")]

/-- Field schema of the `tache_assignee` template (template.py lines 49-58). -/
def tache_assignee_schema : List (String × String) :=
  [("Date", "date mentionnée (format JJ/MM/AAAA)"),
   ("Heure", "heure mentionnée si disponible"),
   ("Opérateur", "nom de la personne qui assigne, sinon \x27Pierre Leroy - Coordinateur\x27"),
   ("Tâche", "nom ou description de la tâche"),
   ("Assigné à", "personne ou équipe assignée"),
   ("Échéance", "date limite si mentionnée"),
   ("Priorité", "niveau de priorité (Faible/Normale/Élevée/Urgente)"),
   ("Description", "détails de la tâche")]

/-- Field schema of the `rapport_generique` template (template.py lines 62-70). -/
def rapport_generique_schema : List (String × String) :=
  [("Date", "date mentionnée (format JJ/MM/AAAA)"),
   ("Heure", "heure mentionnée si disponible"),
   ("Opérateur", "nom de la personne si mentionné, sinon \x27Jean Dupont - Chef de chantier\x27"),
   ("Problème", "problème ou situation décrite"),
   ("Domaine", "zone ou domaine concerné"),
   ("Urgence", "niveau d\x27urgence estimé"),
   ("Plan d\x27action", "actions à prendre")]

/-- The keyword-priority classification chain of `infer_template`
(template.py lines 15-70): lower-case the transcript, then test the four
keyword sets in fixed order, first match wins. -/
def classify (transcript : String) : String × List (String × String) :=
  let normalized := pyLower transcript
  if incident_keywords.any (fun w => strContains normalized w) then
    ("probleme_decouverte", incident_schema)
  else if security_keywords.any (fun w => strContains normalized w) then
    ("tour_securite", tour_securite_schema)
  else if task_keywords.any (fun w => strContains normalized w) then
    ("tache_assignee", tache_assignee_schema)
  else
    ("rapport_generique", rapport_generique_schema)

/-- The fixed fallback operator names of the exception branch
(template.py lines 121-126). -/
def operator_default (template : String) : String :=
  if template == "tour_securite" then "Salma OUARDI - Responsable sécurité"
  else if template == "tache_assignee" then "Pierre Leroy - Coordinateur"
  else "Jean Dupont - Chef de chantier"

/-- The exception branch of `infer_template` (template.py lines 117-126):
every schema field becomes the empty string, then the operator default is
applied when the schema has such a field. -/
def fallback_fields (template : String) (schema : List (String × String)) : FieldMap :=
  let fields : FieldMap := schema.map (fun p => (p.1, ""))
  if hasKey fields "Opérateur" && (getD fields "Opérateur" "" == "") then
    setK fields "Opérateur" (operator_default template)
  else fields

/-- The success-path repair loop of `infer_template` (template.py lines
113-115): any schema field missing from the parsed JSON object is added
with an empty value. -/
def backfill_missing (schema : List (String × String)) (parsed : FieldMap) : FieldMap :=
  schema.foldl (fun fs p => if hasKey fs p.1 then fs else fs ++ [(p.1, "")]) parsed

/-- One conditional date/time default of `infer_template` (template.py
lines 131-141): overwrite field `k` with `v` when `k` is present and empty. -/
def fill_if_empty (fields : FieldMap) (k v : String) : FieldMap :=
  if hasKey fields k && (getD fields k "" == "") then setK fields k v else fields

/-- The date/time auto-fill block of `infer_template` (template.py lines
128-141), applied to all templates in source order. -/
def date_time_fill (fields : FieldMap) (now : Now) : FieldMap :=
  fill_if_empty (fill_if_empty (fill_if_empty (fill_if_empty fields
    "Date de découverte" (dateStr now)) "Heure de découverte" (timeStr now))
    "Date" (dateStr now)) "Heure" (timeStr now)

/-- The try/except body of `infer_template`: on success the parsed JSON
object repaired by `backfill_missing`, on any exception the fallback map. -/
def extract_fields (template : String) (schema : List (String × String))
    (llmOutcome : Except Unit FieldMap) : FieldMap :=
  match llmOutcome with
  | Except.ok parsed => backfill_missing schema parsed
  | Except.error _ => fallback_fields template schema

/-- Shallow embedding of `infer_template` (template.py lines 12-143).
`llmOutcome` stands for the chat-completion call combined with the JSON
decoding of its fence-stripped response: `Except.error` is any raised
exception, `Except.ok` the decoded field map. -/
def infer_template (transcript : String) (llmOutcome : Except Unit FieldMap) (now : Now) :
    String × FieldMap :=
  let tc := classify transcript
  (tc.1, date_time_fill (extract_fields tc.1 tc.2 llmOutcome) now)

/-- Looking up the key just written by `setK` returns the written value. -/
theorem getD_setK_self (m : FieldMap) (k v d : String) : getD (setK m k v) k d = v := by
  induction m with
  | nil => simp [setK, getD]
  | cons p rest ih =>
    by_cases h : p.1 = k
    · simp [setK, getD, h]
    · simp [setK, getD, beq_iff_eq, h, ih]

/-- `setK` does not disturb lookups at other keys. -/
theorem getD_setK_ne (m : FieldMap) (k v k' d : String) (h : k' ≠ k) :
    getD (setK m k v) k' d = getD m k' d := by
  induction m with
  | nil => simp [setK, getD, beq_iff_eq, Ne.symm h]
  | cons p rest ih =>
    by_cases hp : p.1 = k
    · simp [setK, getD, beq_iff_eq, hp, Ne.symm h]
    · simp [setK, getD, beq_iff_eq, hp, ih]

/-- Key presence after `setK`: the old keys plus the written key. -/
theorem hasKey_setK (m : FieldMap) (k v k' : String) :
    hasKey (setK m k v) k' = (hasKey m k' || (k == k')) := by
  induction m with
  | nil => simp [setK, hasKey]
  | cons p rest ih =>
    by_cases hp : p.1 = k
    · simp only [setK, hasKey, List.any_cons] at *
      rw [if_pos (by simp [hp])]
      simp only [List.any_cons, hp]
      cases hb : (k == k') <;> simp [hb]
    · simp only [setK, hasKey, List.any_cons] at *
      rw [if_neg (by simp [hp])]
      simp only [List.any_cons, ih]
      cases hb : (p.1 == k') <;> simp [hb]

/-- `fill_if_empty` never changes which keys are present. -/
theorem hasKey_fill_if_empty (m : FieldMap) (k v k' : String) :
    hasKey (fill_if_empty m k v) k' = hasKey m k' := by
  unfold fill_if_empty
  split
  · rename_i h
    have hk : hasKey m k = true := (Bool.and_eq_true .. ▸ h).1
    rw [hasKey_setK]
    cases hb : (k == k')
    · simp
    · have : k = k' := beq_iff_eq.mp hb
      subst this
      simp [hk]
  · rfl

/-- `fill_if_empty` at key `k` does not disturb lookups at other keys. -/
theorem getD_fill_if_empty_ne (m : FieldMap) (k v k' d : String) (h : k' ≠ k) :
    getD (fill_if_empty m k v) k' d = getD m k' d := by
  unfold fill_if_empty
  split
  · exact getD_setK_ne m k v k' d h
  · rfl

/-- `fill_if_empty` overwrites a present-and-empty key with the new value. -/
theorem getD_fill_if_empty_self (m : FieldMap) (k v : String)
    (hk : hasKey m k = true) (he : getD m k "" = "") :
    getD (fill_if_empty m k v) k "" = v := by
  unfold fill_if_empty
  rw [if_pos (by simp [hk, he])]
  exact getD_setK_self m k v ""

/-- After `fill_if_empty` with a non-empty value, a present key is never
empty. -/
theorem getD_fill_if_empty_ne_empty (m : FieldMap) (k v : String)
    (hv : v ≠ "") (hk : hasKey m k = true) :
    getD (fill_if_empty m k v) k "" ≠ "" := by
  unfold fill_if_empty
  split
  · rw [getD_setK_self]
    exact hv
  · rename_i h
    intro hcon
    exact h (by simp [hk, hcon])

/-- The model strftime date string is never empty. -/
theorem dateStr_ne_empty (now : Now) : dateStr now ≠ "" := by
  simp [dateStr, pad2, pad4, String.ext_iff]

/-- The model strftime time string is never empty. -/
theorem timeStr_ne_empty (now : Now) : timeStr now ≠ "" := by
  simp [timeStr, pad2, String.ext_iff]

/-- Claim C1: template classification inside `infer_template` is
deterministic and priority ordered.  If the lower-cased transcript
contains an incident keyword the returned identifier is
`probleme_decouverte`, regardless of the safety-tour and task keyword
sets; if it matches none of the keyword sets the identifier is
`rapport_generique`. -/
theorem c1_classification_priority (t : String) (llm : Except Unit FieldMap) (now : Now) :
    (incident_keywords.any (fun w => strContains (pyLower t) w) = true →
      (infer_template t llm now).1 = "probleme_decouverte") ∧
    (incident_keywords.any (fun w => strContains (pyLower t) w) = false →
      security_keywords.any (fun w => strContains (pyLower t) w) = false →
      task_keywords.any (fun w => strContains (pyLower t) w) = false →
      (infer_template t llm now).1 = "rapport_generique") := by
  unfold infer_template classify
  constructor
  · intro h
    simp [h]
  · intro h1 h2 h3
    simp [h1, h2, h3]

/-- Claim C1, concrete instantiation: a transcript holding both an
incident keyword (fuite) and a task keyword (tâche assignée) classifies as
the incident template, and a keyword-free transcript classifies as the
generic template. -/
theorem c1_classification_priority_witness :
    (infer_template "Fuite importante, tâche assignée à Marc" (Except.error ())
      ⟨5, 3, 2025, 14, 30⟩).1 = "probleme_decouverte" ∧
    (infer_template "Bonjour le monde" (Except.error ())
      ⟨5, 3, 2025, 14, 30⟩).1 = "rapport_generique" := by
  constructor
  · exact (c1_classification_priority "Fuite importante, tâche assignée à Marc"
      (Except.error ()) ⟨5, 3, 2025, 14, 30⟩).1 (by decide)
  · exact (c1_classification_priority "Bonjour le monde"
      (Except.error ()) ⟨5, 3, 2025, 14, 30⟩).2 (by decide) (by decide) (by decide)

/-- Claim C3, counterexample: on LLM failure the field map returned by
`infer_template` is not all-empty outside the operator field.  At
transcript "incident" with a failing LLM and clock 05/03/2025 14:30, the
schema field "Date de découverte" (which is not the operator field) is
bound to the non-empty string "05/03/2025", because the date/time
auto-fill block runs after the exception fallback. -/
theorem c3_counterexample :
    hasKey (infer_template "incident" (Except.error ()) ⟨5, 3, 2025, 14, 30⟩).2
        "Date de découverte" = true ∧
    "Date de découverte" ≠ "Opérateur" ∧
    getD (infer_template "incident" (Except.error ()) ⟨5, 3, 2025, 14, 30⟩).2
        "Date de découverte" "" = "05/03/2025" := by
  refine ⟨by decide, by decide, by decide⟩

/-- Claim C3, amended: if the LLM call or the JSON decoding of its
response raises any exception, `infer_template` returns exactly the
schema keys of the chosen template, each mapped to the empty string,
except that an "Opérateur" field is set to the fixed non-empty default
name keyed by the template, and except the date/time fields, which the
unconditional post-processing then fills with the current date or time.
No partial structure from the failed response is propagated. -/
theorem c3_amended_fallback_shape (t : String) (now : Now) :
    ((infer_template t (Except.error ()) now).1 = "probleme_decouverte" →
      (infer_template t (Except.error ()) now).2 =
        [("Nom du chantier", ""), ("Nom de l\x27incident", ""),
         ("Emetteur du signalement", ""), ("Date de découverte", dateStr now),
         ("Heure de découverte", timeStr now), ("Adresse", ""),
         ("Nature de l\x27incident", ""), ("Description de l\x27incident", ""),
         ("Risques identifiés", ""), ("Actions à réaliser", ""),
         ("Niveau d\x27urgence", ""), ("Personnes prévenues", "")]) ∧
    ((infer_template t (Except.error ()) now).1 = "tour_securite" →
      (infer_template t (Except.error ()) now).2 =
        [("Date", dateStr now), ("Heure", timeStr now),
         ("Opérateur", "Salma OUARDI - Responsable sécurité"),
         ("Zone inspectée", ""), ("Observations", ""), ("Non-conformités", ""),
         ("Actions correctives", "")]) ∧
    ((infer_template t (Except.error ()) now).1 = "tache_assignee" →
      (infer_template t (Except.error ()) now).2 =
        [("Date", dateStr now), ("Heure", timeStr now),
         ("Opérateur", "Pierre Leroy - Coordinateur"), ("Tâche", ""),
         ("Assigné à", ""), ("Échéance", ""), ("Priorité", ""),
         ("Description", "")]) ∧
    ((infer_template t (Except.error ()) now).1 = "rapport_generique" →
      (infer_template t (Except.error ()) now).2 =
        [("Date", dateStr now), ("Heure", timeStr now),
         ("Opérateur", "Jean Dupont - Chef de chantier"), ("Problème", ""),
         ("Domaine", ""), ("Urgence", ""), ("Plan d\x27action", "")]) := by
  unfold infer_template classify
  cases hb1 : incident_keywords.any (fun w => strContains (pyLower t) w) with
  | true =>
    simp only [hb1, if_true]
    exact ⟨fun _ => rfl, fun h => absurd h (by decide), fun h => absurd h (by decide),
      fun h => absurd h (by decide)⟩
  | false =>
    cases hb2 : security_keywords.any (fun w => strContains (pyLower t) w) with
    | true =>
      simp only [hb1, hb2, Bool.false_eq_true, if_false, if_true]
      exact ⟨fun h => absurd h (by decide), fun _ => rfl, fun h => absurd h (by decide),
        fun h => absurd h (by decide)⟩
    | false =>
      cases hb3 : task_keywords.any (fun w => strContains (pyLower t) w) with
      | true =>
        simp only [hb1, hb2, hb3, Bool.false_eq_true, if_false, if_true]
        exact ⟨fun h => absurd h (by decide), fun h => absurd h (by decide), fun _ => rfl,
          fun h => absurd h (by decide)⟩
      | false =>
        simp only [hb1, hb2, hb3, Bool.false_eq_true, if_false]
        exact ⟨fun h => absurd h (by decide), fun h => absurd h (by decide),
          fun h => absurd h (by decide), fun _ => rfl⟩

/-- Claim C3 amended, concrete instantiation: transcript "incident" with a
failing LLM at 05/03/2025 14:30 yields the all-empty incident schema with
the discovery date and hour auto-filled. -/
theorem c3_amended_fallback_shape_witness :
    (infer_template "incident" (Except.error ()) ⟨5, 3, 2025, 14, 30⟩).2 =
      [("Nom du chantier", ""), ("Nom de l\x27incident", ""),
       ("Emetteur du signalement", ""), ("Date de découverte", "05/03/2025"),
       ("Heure de découverte", "14:30"), ("Adresse", ""),
       ("Nature de l\x27incident", ""), ("Description de l\x27incident", ""),
       ("Risques identifiés", ""), ("Actions à réaliser", ""),
       ("Niveau d\x27urgence", ""), ("Personnes prévenues", "")] := by
  have h := (c3_amended_fallback_shape "incident" ⟨5, 3, 2025, 14, 30⟩).1 (by decide)
  exact h.trans (by decide)

/-- A date field that is present and empty before the auto-fill block holds
the current date afterwards. -/
theorem getD_date_time_fill_date (m : FieldMap) (now : Now) (k : String)
    (hk : k = "Date de découverte" ∨ k = "Date")
    (h1 : hasKey m k = true) (h2 : getD m k "" = "") :
    getD (date_time_fill m now) k "" = dateStr now := by
  unfold date_time_fill
  rcases hk with rfl | rfl
  · rw [getD_fill_if_empty_ne _ _ _ _ _ (by decide),
        getD_fill_if_empty_ne _ _ _ _ _ (by decide),
        getD_fill_if_empty_ne _ _ _ _ _ (by decide)]
    exact getD_fill_if_empty_self m _ _ h1 h2
  · rw [getD_fill_if_empty_ne _ _ _ _ _ (by decide)]
    refine getD_fill_if_empty_self _ _ _ ?_ ?_
    · rw [hasKey_fill_if_empty, hasKey_fill_if_empty]
      exact h1
    · rw [getD_fill_if_empty_ne _ _ _ _ _ (by decide),
          getD_fill_if_empty_ne _ _ _ _ _ (by decide)]
      exact h2

/-- An hour field that is present and empty before the auto-fill block holds
the current time afterwards. -/
theorem getD_date_time_fill_hour (m : FieldMap) (now : Now) (k : String)
    (hk : k = "Heure de découverte" ∨ k = "Heure")
    (h1 : hasKey m k = true) (h2 : getD m k "" = "") :
    getD (date_time_fill m now) k "" = timeStr now := by
  unfold date_time_fill
  rcases hk with rfl | rfl
  · rw [getD_fill_if_empty_ne _ _ _ _ _ (by decide),
        getD_fill_if_empty_ne _ _ _ _ _ (by decide)]
    refine getD_fill_if_empty_self _ _ _ ?_ ?_
    · rw [hasKey_fill_if_empty]
      exact h1
    · rw [getD_fill_if_empty_ne _ _ _ _ _ (by decide)]
      exact h2
  · refine getD_fill_if_empty_self _ _ _ ?_ ?_
    · rw [hasKey_fill_if_empty, hasKey_fill_if_empty, hasKey_fill_if_empty]
      exact h1
    · rw [getD_fill_if_empty_ne _ _ _ _ _ (by decide),
          getD_fill_if_empty_ne _ _ _ _ _ (by decide),
          getD_fill_if_empty_ne _ _ _ _ _ (by decide)]
      exact h2

/-- After the auto-fill block no present date/time field is empty. -/
theorem getD_date_time_fill_ne_empty (m : FieldMap) (now : Now) (k : String)
    (hk : k ∈ (["Date de découverte", "Heure de découverte", "Date", "Heure"] : List String))
    (h1 : hasKey (date_time_fill m now) k = true) :
    getD (date_time_fill m now) k "" ≠ "" := by
  have hKm : hasKey m k = true := by
    simpa [date_time_fill, hasKey_fill_if_empty] using h1
  simp only [List.mem_cons, List.not_mem_nil, or_false] at hk
  unfold date_time_fill
  rcases hk with rfl | rfl | rfl | rfl
  · rw [getD_fill_if_empty_ne _ _ _ _ _ (by decide),
        getD_fill_if_empty_ne _ _ _ _ _ (by decide),
        getD_fill_if_empty_ne _ _ _ _ _ (by decide)]
    exact getD_fill_if_empty_ne_empty m _ _ (dateStr_ne_empty now) hKm
  · rw [getD_fill_if_empty_ne _ _ _ _ _ (by decide),
        getD_fill_if_empty_ne _ _ _ _ _ (by decide)]
    refine getD_fill_if_empty_ne_empty _ _ _ (timeStr_ne_empty now) ?_
    rw [hasKey_fill_if_empty]
    exact hKm
  · rw [getD_fill_if_empty_ne _ _ _ _ _ (by decide)]
    refine getD_fill_if_empty_ne_empty _ _ _ (dateStr_ne_empty now) ?_
    rw [hasKey_fill_if_empty, hasKey_fill_if_empty]
    exact hKm
  · refine getD_fill_if_empty_ne_empty _ _ _ (timeStr_ne_empty now) ?_
    rw [hasKey_fill_if_empty, hasKey_fill_if_empty, hasKey_fill_if_empty]
    exact hKm

/-- Claim C4: for every transcript and every LLM outcome the field map
returned by `infer_template` never holds an empty value for a present
date/time field: a date field that was present and empty after extraction
ends up equal to the current date in DD/MM/YYYY, an hour field ends up
equal to the current time in HH:MM, and every present date/time field of
the final map is non-empty. -/
theorem c4_date_time_autofill (t : String) (llm : Except Unit FieldMap) (now : Now) :
    (∀ k, (k = "Date de découverte" ∨ k = "Date") →
      hasKey (extract_fields (classify t).1 (classify t).2 llm) k = true →
      getD (extract_fields (classify t).1 (classify t).2 llm) k "" = "" →
      getD (infer_template t llm now).2 k "" = dateStr now) ∧
    (∀ k, (k = "Heure de découverte" ∨ k = "Heure") →
      hasKey (extract_fields (classify t).1 (classify t).2 llm) k = true →
      getD (extract_fields (classify t).1 (classify t).2 llm) k "" = "" →
      getD (infer_template t llm now).2 k "" = timeStr now) ∧
    (∀ k, k ∈ (["Date de découverte", "Heure de découverte", "Date", "Heure"] : List String) →
      hasKey (infer_template t llm now).2 k = true →
      getD (infer_template t llm now).2 k "" ≠ "") := by
  refine ⟨fun k hk h1 h2 => ?_, fun k hk h1 h2 => ?_, fun k hk h1 => ?_⟩
  · exact getD_date_time_fill_date _ now k hk h1 h2
  · exact getD_date_time_fill_hour _ now k hk h1 h2
  · exact getD_date_time_fill_ne_empty _ now k hk h1

/-- Claim C4, concrete instantiation: a successfully parsed LLM response
binding "Date de découverte" to the empty string ends up holding the
current date 05/03/2025. -/
theorem c4_date_time_autofill_witness :
    getD (infer_template "incident" (Except.ok [("Date de découverte", "")])
      ⟨5, 3, 2025, 14, 30⟩).2 "Date de découverte" "" = "05/03/2025" := by
  have h := (c4_date_time_autofill "incident" (Except.ok [("Date de découverte", "")])
    ⟨5, 3, 2025, 14, 30⟩).1 "Date de découverte" (Or.inl rfl) (by decide) (by decide)
  exact h.trans (by decide)

/-- The French report headers table `TEMPLATE_HEADERS` (report.py lines
10-15). -/
def TEMPLATE_HEADERS : List (String × String) :=
  [("probleme_decouverte", "RAPPORT D\x27INCIDENT - Problème Découvert"),
   ("tour_securite", "RAPPORT DE SÉCURITÉ - Tour de Chantier"),
   ("tache_assignee", "RAPPORT D\x27AFFECTATION - Tâche Assignée"),
   ("rapport_generique", "RAPPORT DE CHANTIER - Générique")]

/-- Model of the Python string repetition `c * n` for a single character. -/
def repChar (c : Char) (n : Nat) : String := ⟨List.replicate n c⟩

/-- One rendered field line of `generate_report` (report.py lines 55-58):
bullet, field name, colon, then the value or the fixed sentinel
"Non renseigné" when the value is empty. -/
def fieldLine (p : String × String) : String :=
  "▪ " ++ p.1 ++ ": " ++ (if p.2 = "" then "Non renseigné" else p.2)

/-- The optional transcript block of `generate_report` (report.py lines
61-72); the Python truthiness test skips both `None` and the empty string. -/
def transcript_block (transcript : Option String) : List String :=
  match transcript with
  | some t =>
    if t = "" then []
    else ["", repChar '─' 60, "TRANSCRIPTION AUDIO", repChar '─' 60, "", t, ""]
  | none => []

/-- The list of lines built by `generate_report` (report.py lines 42-83)
before they are joined with newlines. -/
def reportLines (template_type : String) (fields : FieldMap)
    (transcript : Option String) (now : Now) : List String :=
  [repChar '=' 60,
   getD TEMPLATE_HEADERS template_type ("RAPPORT DE CHANTIER - " ++ pyUpper template_type),
   repChar '=' 60,
   "Généré le: " ++ (dateStr now ++ " à " ++ timeStr now),
   "",
   repChar '─' 60,
   "DÉTAILS DU RAPPORT",
   repChar '─' 60,
   ""]
  ++ fields.map fieldLine
  ++ transcript_block transcript
  ++ ["",
      repChar '─' 60,
      "Rapport généré automatiquement par Site Reporter MVP",
      "Note: La génération PDF sera ajoutée prochainement",
      repChar '─' 60]

/-- Model of Python `sep.join(lines)`. -/
def strJoin (sep : String) : List String → String
  | [] => ""
  | [x] => x
  | x :: y :: xs => x ++ sep ++ strJoin sep (y :: xs)

/-- Shallow embedding of `generate_report` (report.py lines 18-85). -/
def generate_report (template_type : String) (fields : FieldMap)
    (transcript : Option String) (now : Now) : String :=
  strJoin "\n" (reportLines template_type fields transcript now)

/-- An occurrence inside a list stays an occurrence after prepending. -/
theorem isInfix_append_left {α : Type} (pre : List α) {l r : List α}
    (h : l <:+: r) : l <:+: pre ++ r := by
  obtain ⟨s, t, rfl⟩ := h
  exact ⟨pre ++ s, t, by simp⟩

/-- `listContains` decides the contiguous-occurrence relation. -/
theorem listContains_iff (needle hay : List Char) :
    listContains needle hay = true ↔ needle <:+: hay := by
  induction hay with
  | nil => simp [listContains, List.isEmpty_iff]
  | cons c rest ih =>
    simp [listContains, List.infix_cons_iff, ih, List.isPrefixOf_iff_prefix,
      Bool.or_eq_true]

/-- `strContains` holds whenever the underlying character lists nest. -/
theorem strContains_eq_true_of_infix {hay needle : String}
    (h : needle.data <:+: hay.data) : strContains hay needle = true :=
  (listContains_iff needle.data hay.data).mpr h

/-- A line of the joined report stays visible as a contiguous substring. -/
theorem strJoin_infix_of_mem (sep : String) (l : List String) (s : String)
    (h : s ∈ l) : s.data <:+: (strJoin sep l).data := by
  induction l with
  | nil => cases h
  | cons x xs ih =>
    cases xs with
    | nil =>
      rw [List.mem_singleton.mp h]
      exact List.infix_refl x.data
    | cons y ys =>
      rcases List.mem_cons.mp h with rfl | h'
      · show s.data <:+: ((s ++ sep) ++ strJoin sep (y :: ys)).data
        rw [String.data_append, String.data_append]
        exact ⟨[], sep.data ++ (strJoin sep (y :: ys)).data, by simp⟩
      · have h2 := ih h'
        show s.data <:+: ((x ++ sep) ++ strJoin sep (y :: ys)).data
        rw [String.data_append]
        exact isInfix_append_left (x ++ sep).data h2

/-- Every key of the field map is rendered inside `reportLines`. -/
theorem fieldLine_mem_reportLines (tt : String) (fields : FieldMap)
    (tr : Option String) (now : Now) (p : String × String) (hp : p ∈ fields) :
    fieldLine p ∈ reportLines tt fields tr now := by
  unfold reportLines
  refine List.mem_append.mpr (Or.inl (List.mem_append.mpr (Or.inl
    (List.mem_append.mpr (Or.inr ?_)))))
  exact List.mem_map_of_mem fieldLine hp

/-- Claim C6, round-trip: for every template identifier, field map and
optional transcript, every field key of the map occurs literally as a
substring of the string returned by `generate_report`. -/
theorem c6_report_contains_every_key (tt : String) (fields : FieldMap)
    (tr : Option String) (now : Now) (k : String)
    (hk : hasKey fields k = true) :
    strContains (generate_report tt fields tr now) k = true := by
  obtain ⟨p, hp, hpk⟩ := List.any_eq_true.mp hk
  have hk' : p.1 = k := beq_iff_eq.mp hpk
  have hline := fieldLine_mem_reportLines tt fields tr now p hp
  have hjoin := strJoin_infix_of_mem "\n" (reportLines tt fields tr now) _ hline
  refine strContains_eq_true_of_infix (List.IsInfix.trans ?_ hjoin)
  subst hk'
  show p.1.data <:+: ((("▪ " ++ p.1) ++ ": ") ++ (if p.2 = "" then "Non renseigné" else p.2)).data
  rw [String.data_append, String.data_append, String.data_append]
  exact ⟨"▪ ".data, ": ".data ++ (if p.2 = "" then "Non renseigné" else p.2).data, by simp⟩

/-- Claim C6, concrete instantiation. -/
theorem c6_report_contains_every_key_witness :
    strContains
      (generate_report "tour_securite" [("Zone inspectée", "Bâtiment B2")]
        (some "tour de sécurité") ⟨5, 3, 2025, 14, 30⟩)
      "Zone inspectée" = true :=
  c6_report_contains_every_key "tour_securite" [("Zone inspectée", "Bâtiment B2")]
    (some "tour de sécurité") ⟨5, 3, 2025, 14, 30⟩ "Zone inspectée" (by decide)

/-- Claim C7: every field of the map handed to `generate_report` is
rendered as one line of the report, formatted as the field name, a colon
and the value, where an empty value is replaced by the fixed sentinel
"Non renseigné" and a non-empty value appears verbatim; the rendered line
occurs contiguously in the returned report text. -/
theorem c7_field_rendering (tt : String) (fields : FieldMap)
    (tr : Option String) (now : Now) (k v : String)
    (hm : (k, v) ∈ fields) :
    fieldLine (k, v) ∈ reportLines tt fields tr now ∧
    strContains (generate_report tt fields tr now) (fieldLine (k, v)) = true ∧
    (v = "" → fieldLine (k, v) = "▪ " ++ k ++ ": " ++ "Non renseigné") ∧
    (v ≠ "" → fieldLine (k, v) = "▪ " ++ k ++ ": " ++ v) := by
  have hline := fieldLine_mem_reportLines tt fields tr now (k, v) hm
  refine ⟨hline, ?_, ?_, ?_⟩
  · exact strContains_eq_true_of_infix
      (strJoin_infix_of_mem "\n" (reportLines tt fields tr now) _ hline)
  · intro h
    simp [fieldLine, h]
  · intro h
    simp [fieldLine, h]

/-- Claim C7, concrete instantiation: an empty value renders with the
sentinel and a non-empty value renders verbatim. -/
theorem c7_field_rendering_witness :
    fieldLine ("Urgence", "") ∈
      reportLines "rapport_generique" [("Urgence", ""), ("Domaine", "toiture")]
        none ⟨5, 3, 2025, 14, 30⟩ ∧
    fieldLine ("Urgence", "") = "▪ Urgence: Non renseigné" ∧
    fieldLine ("Domaine", "toiture") = "▪ Domaine: toiture" := by
  have h1 := c7_field_rendering "rapport_generique"
    [("Urgence", ""), ("Domaine", "toiture")] none ⟨5, 3, 2025, 14, 30⟩
    "Urgence" "" (by decide)
  have h2 := c7_field_rendering "rapport_generique"
    [("Urgence", ""), ("Domaine", "toiture")] none ⟨5, 3, 2025, 14, 30⟩
    "Domaine" "toiture" (by decide)
  exact ⟨h1.1, (h1.2.2.1 rfl).trans (by decide), (h2.2.2.2 (by decide)).trans (by decide)⟩

/-- External side effects a route can trigger (speech-to-text call, chat
completion call, opening the DOCX template file). -/
inductive Effect where
  | sttCall
  | llmCall
  | openTemplate
  deriving DecidableEq

/-- Shallow embedding of the `/api/report/template` route
`infer_template_route` (pipeline.py lines 36-50): strip the transcript,
reject the empty result with HTTP 400 before any external call, otherwise
run `infer_template` (whose chat-completion call is the recorded effect). -/
def infer_template_route (transcript : String) (llm : Except Unit FieldMap)
    (now : Now) : List Effect × Except Nat (String × FieldMap) :=
  let t := pyStrip transcript
  if t = "" then ([], Except.error 400)
  else ([Effect.llmCall], Except.ok (infer_template t llm now))

/-- Shallow embedding of the `/api/report/generate` route
`generate_report_route` (pipeline.py lines 53-66): an empty field map is
rejected with HTTP 400; otherwise the pure renderer runs, with no external
call either way. -/
def generate_report_route (template_type : String) (fields : FieldMap)
    (transcript : Option String) (now : Now) : List Effect × Except Nat String :=
  if fields.isEmpty then ([], Except.error 400)
  else ([], Except.ok (generate_report template_type fields transcript now))

/-- Shallow embedding of the `/api/report/download/docx` route
`download_docx` (pipeline.py lines 81-121): an empty field map is rejected
with HTTP 400 before the template file is probed or opened; a missing
template file or a generation error yields HTTP 500; otherwise the
template is opened and the document is produced. -/
def download_docx_route (fields : FieldMap) (templateExists : Bool)
    (gen : Except Unit Unit) : List Effect × Except Nat Unit :=
  if fields.isEmpty then ([], Except.error 400)
  else if templateExists = false then ([], Except.error 500)
  else
    match gen with
    | Except.error _ => ([Effect.openTemplate], Except.error 500)
    | Except.ok _ => ([Effect.openTemplate], Except.ok ())

/-- Shallow embedding of the `/api/pipeline/auto` route `auto_pipeline`
(pipeline.py lines 69-78): the transcription result `sttText` flows
unchecked into `infer_template` and then into `generate_report`. -/
def auto_pipeline (sttText : String) (llm : Except Unit FieldMap) (now : Now) :
    List Effect × (String × String × FieldMap × String) :=
  ([Effect.sttCall, Effect.llmCall],
    (sttText, (infer_template sttText llm now).1, (infer_template sttText llm now).2,
      generate_report (infer_template sttText llm now).1
        (infer_template sttText llm now).2 (some sttText) now))

/-- Claim C2: validation failures are rejected with HTTP 400 before any
external call.  A transcript that is empty after stripping is rejected by
the template route, and an empty field map is rejected by the report and
DOCX routes, in every case with an empty effect trace: no STT call, no
LLM call, and no opened template. -/
theorem c2_validation_before_external_calls :
    (∀ (transcript : String) (llm : Except Unit FieldMap) (now : Now),
      pyStrip transcript = "" →
      infer_template_route transcript llm now = ([], Except.error 400)) ∧
    (∀ (tt : String) (fields : FieldMap) (tr : Option String) (now : Now),
      fields = [] →
      generate_report_route tt fields tr now = ([], Except.error 400)) ∧
    (∀ (fields : FieldMap) (templateExists : Bool) (gen : Except Unit Unit),
      fields = [] →
      download_docx_route fields templateExists gen = ([], Except.error 400)) := by
  refine ⟨fun transcript llm now h => ?_, fun tt fields tr now h => ?_,
    fun fields templateExists gen h => ?_⟩
  · simp [infer_template_route, h]
  · simp [generate_report_route, h]
  · simp [download_docx_route, h]

/-- Claim C2, concrete instantiation: a whitespace-only transcript and
empty field maps are all rejected with HTTP 400 and no effects. -/
theorem c2_validation_before_external_calls_witness :
    infer_template_route "   " (Except.error ()) ⟨5, 3, 2025, 14, 30⟩ =
      ([], Except.error 400) ∧
    generate_report_route "rapport_generique" [] none ⟨5, 3, 2025, 14, 30⟩ =
      ([], Except.error 400) ∧
    download_docx_route [] true (Except.ok ()) = ([], Except.error 400) := by
  refine ⟨?_, ?_, ?_⟩
  · exact c2_validation_before_external_calls.1 "   " (Except.error ())
      ⟨5, 3, 2025, 14, 30⟩ (by decide)
  · exact c2_validation_before_external_calls.2.1 "rapport_generique" [] none
      ⟨5, 3, 2025, 14, 30⟩ rfl
  · exact c2_validation_before_external_calls.2.2 [] true (Except.ok ()) rfl

/-- Claim C10: the combined auto-pipeline endpoint performs no emptiness
validation on the transcription result.  Whatever string the STT service
returns, including a whitespace-only one, flows into `infer_template`
(the chat-completion effect fires) and then into `generate_report`, while
the standalone template route rejects the same transcript with HTTP 400
and no external call. -/
theorem c10_auto_pipeline_skips_validation (sttText : String)
    (llm : Except Unit FieldMap) (now : Now) :
    auto_pipeline sttText llm now =
      ([Effect.sttCall, Effect.llmCall],
        (sttText, (infer_template sttText llm now).1, (infer_template sttText llm now).2,
          generate_report (infer_template sttText llm now).1
            (infer_template sttText llm now).2 (some sttText) now)) ∧
    (pyStrip sttText = "" →
      infer_template_route sttText llm now = ([], Except.error 400)) := by
  refine ⟨rfl, fun h => ?_⟩
  simp [infer_template_route, h]

/-- Claim C10, concrete instantiation at a whitespace-only transcription
result: the auto pipeline still calls the LLM and renders a report, while
the standalone route rejects. -/
theorem c10_auto_pipeline_skips_validation_witness :
    (auto_pipeline " " (Except.error ()) ⟨5, 3, 2025, 14, 30⟩).1 =
      [Effect.sttCall, Effect.llmCall] ∧
    infer_template_route " " (Except.error ()) ⟨5, 3, 2025, 14, 30⟩ =
      ([], Except.error 400) := by
  have h := c10_auto_pipeline_skips_validation " " (Except.error ()) ⟨5, 3, 2025, 14, 30⟩
  exact ⟨by rw [h.1], h.2 (by decide)⟩

/-- Left-to-right non-overlapping replacement of `pat` by `rep`, the model
of Python `str.replace`.  The `fuel` argument only bounds the recursion
structurally; it is initialised to the length of the scanned list, which
each step decreases by at least one, so the fuel never runs out. -/
def replaceCharsF (pat rep : List Char) : Nat → List Char → List Char
  | _, [] => []
  | 0, s => s
  | fuel + 1, c :: rest =>
    if pat.isPrefixOf (c :: rest) then
      rep ++ replaceCharsF pat rep fuel (List.drop (pat.length - 1) rest)
    else
      c :: replaceCharsF pat rep fuel rest

/-- Model of Python `text.replace(pat, rep)` for non-empty patterns. -/
def strReplace (text pat rep : String) : String :=
  ⟨replaceCharsF pat.data rep.data text.data.length text.data⟩

/-- The literal `{field}` token (docx_generator.py line 19). -/
def placeholder_brace (field : String) : String := "\x7b" ++ field ++ "\x7d"

/-- The literal `[field]` token (docx_generator.py line 19). -/
def placeholder_bracket (field : String) : String := "[" ++ field ++ "]"

/-- Model of `_strip_placeholder` (docx_generator.py lines 16-19): remove
both placeholder tokens for the field, then strip whitespace. -/
def strip_placeholder (text field : String) : String :=
  pyStrip (strReplace (strReplace text (placeholder_brace field) "")
    (placeholder_bracket field) "")

/-- Model of `_normalize_label` (docx_generator.py lines 32-35): drop
colons, strip whitespace, lower-case. -/
def normalize_label (text : String) : String :=
  pyLower (pyStrip (strReplace text ":" ""))

/-- The `field_mapping` table of `generate_incident_docx`
(docx_generator.py lines 95-108): template field name to extracted field
name, all twelve identical. -/
def docx_field_mapping : List (String × String) :=
  [("Nom du chantier", "Nom du chantier"),
   ("Nom de l\x27incident", "Nom de l\x27incident"),
   ("Emetteur du signalement", "Emetteur du signalement"),
   ("Date de découverte", "Date de découverte"),
   ("Heure de découverte", "Heure de découverte"),
   ("Adresse", "Adresse"),
   ("Nature de l\x27incident", "Nature de l\x27incident"),
   ("Description de l\x27incident", "Description de l\x27incident"),
   ("Risques identifiés", "Risques identifiés"),
   ("Actions à réaliser", "Actions à réaliser"),
   ("Niveau d\x27urgence", "Niveau d\x27urgence"),
   ("Personnes prévenues", "Personnes prévenues")]

/-- The left-cell match test of the row loop (docx_generator.py line 125):
the lowered field name occurs in the normalized label, or either
placeholder token occurs in the raw left-cell text. -/
def rowLeftMatch (tf left : String) : Bool :=
  strContains (normalize_label left) (pyLower tf) ||
    strContains left (placeholder_brace tf) ||
    strContains left (placeholder_bracket tf)

/-- The right-cell match test of the row loop (docx_generator.py line
132): either placeholder token occurs in the right-cell text. -/
def rowRightMatch (tf right : String) : Bool :=
  strContains right (placeholder_brace tf) || strContains right (placeholder_bracket tf)

/-- The per-row field scan of `generate_incident_docx` (docx_generator.py
lines 120-137) over a two-column row: walk the field mapping in order; on
the first left-cell or right-cell match, strip the placeholder tokens from
the label cell, write `fields.get(extracted_field, "")` into the value
cell and stop; report whether a match happened. -/
def fill_row_cells (fields : FieldMap) :
    List (String × String) → String → String → String × String × Bool
  | [], left, right => (left, right, false)
  | (tf, ef) :: rest, left, right =>
    if rowLeftMatch tf left then (strip_placeholder left tf, getD fields ef "", true)
    else if rowRightMatch tf right then (strip_placeholder left tf, getD fields ef "", true)
    else fill_row_cells fields rest left right

/-- The full row scan with the fixed field mapping. -/
def process_row (fields : FieldMap) (left right : String) : String × String × Bool :=
  fill_row_cells fields docx_field_mapping left right

/-- The row scan returns the first matching entry of the mapping list. -/
theorem fill_row_cells_first_match (fields : FieldMap)
    (l₁ l₂ : List (String × String)) (tf ef left right : String)
    (h₁ : ∀ p ∈ l₁, rowLeftMatch p.1 left = false ∧ rowRightMatch p.1 right = false)
    (h₂ : rowLeftMatch tf left = true ∨ rowRightMatch tf right = true) :
    fill_row_cells fields (l₁ ++ (tf, ef) :: l₂) left right =
      (strip_placeholder left tf, getD fields ef "", true) := by
  induction l₁ with
  | nil =>
    simp only [List.nil_append, fill_row_cells]
    rcases h₂ with h | h
    · rw [if_pos h]
    · by_cases hl : rowLeftMatch tf left = true
      · rw [if_pos hl]
      · rw [if_neg hl, if_pos h]
  | cons q l₁ ih =>
    obtain ⟨qtf, qef⟩ := q
    obtain ⟨hq1, hq2⟩ := h₁ (qtf, qef) (List.mem_cons_self _ _)
    simp only [List.cons_append, fill_row_cells]
    rw [if_neg (by simp [hq1]), if_neg (by simp [hq2])]
    exact ih (fun p hp => h₁ p (List.mem_cons_of_mem _ hp))

/-- A lookup with default on an absent key returns the default. -/
theorem getD_eq_default_of_hasKey_false (m : FieldMap) (k d : String)
    (h : hasKey m k = false) : getD m k d = d := by
  induction m with
  | nil => rfl
  | cons p rest ih =>
    rw [hasKey, List.any_cons, Bool.or_eq_false_iff] at h
    rw [getD, if_neg (by simp [h.1])]
    exact ih h.2

/-- Claim C8: in the two-column row scan of `generate_incident_docx`, the
first field of the fixed mapping whose lowered name occurs in the
normalized left-cell label, or whose placeholder token occurs in either
cell, wins: the placeholder tokens are stripped from the label cell, the
extracted value is written verbatim into the right-hand cell, and the scan
of the row stops there. -/
theorem c8_docx_row_first_match (fields : FieldMap)
    (l₁ l₂ : List (String × String)) (tf ef left right : String)
    (hmap : docx_field_mapping = l₁ ++ (tf, ef) :: l₂)
    (hearlier : ∀ p ∈ l₁, rowLeftMatch p.1 left = false ∧ rowRightMatch p.1 right = false)
    (hmatch : rowLeftMatch tf left = true ∨ rowRightMatch tf right = true) :
    process_row fields left right = (strip_placeholder left tf, getD fields ef "", true) := by
  unfold process_row
  rw [hmap]
  exact fill_row_cells_first_match fields l₁ l₂ tf ef left right hearlier hmatch

/-- Claim C8, concrete instantiation, the scenario of the specification: a
row with left cell "Adresse:" and empty right cell, with the field map
binding "Adresse" to "12 Rue X", ends with the right cell holding
"12 Rue X" and the left cell still reading "Adresse:". -/
theorem c8_docx_row_first_match_witness :
    process_row [("Adresse", "12 Rue X")] "Adresse:" "" = ("Adresse:", "12 Rue X", true) := by
  have h := c8_docx_row_first_match [("Adresse", "12 Rue X")]
    (docx_field_mapping.take 5) (docx_field_mapping.drop 6) "Adresse" "Adresse"
    "Adresse:" "" (by decide) (by decide) (Or.inl (by decide))
  exact h.trans (by decide)

/-- Claim C9 (implicit behavior): a two-column row whose label matches a
template field that is absent from the supplied field map still counts as
a match, and its right-hand cell is overwritten with the empty string,
because `fields.get` defaults to ""; the original right-cell content is
lost rather than preserved. -/
theorem c9_missing_field_blanks_value_cell (fields : FieldMap)
    (l₁ l₂ : List (String × String)) (tf ef left right : String)
    (hmap : docx_field_mapping = l₁ ++ (tf, ef) :: l₂)
    (hearlier : ∀ p ∈ l₁, rowLeftMatch p.1 left = false ∧ rowRightMatch p.1 right = false)
    (hmatch : rowLeftMatch tf left = true)
    (habs : hasKey fields ef = false) :
    process_row fields left right = (strip_placeholder left tf, "", true) := by
  unfold process_row
  rw [hmap, fill_row_cells_first_match fields l₁ l₂ tf ef left right hearlier (Or.inl hmatch),
    getD_eq_default_of_hasKey_false fields ef "" habs]

/-- Claim C9, concrete instantiation: with an empty field map, the matched
row "Adresse:" has its value cell overwritten from "contenu initial" to
the empty string. -/
theorem c9_missing_field_blanks_value_cell_witness :
    process_row [] "Adresse:" "contenu initial" = ("Adresse:", "", true) := by
  have h := c9_missing_field_blanks_value_cell []
    (docx_field_mapping.take 5) (docx_field_mapping.drop 6) "Adresse" "Adresse"
    "Adresse:" "contenu initial" (by decide) (by decide) (by decide) (by decide)
  exact h.trans (by decide)

/-- Modelled from the spec: helper for the year-reconciliation step that
the spec attributes to incident-focused variants of `infer_template` and
that is absent from src/backend/app/services/template.py.  Collects the
maximal digit runs of the scanned character list (`cur` is the current run
reversed). -/
def digit_runs_aux (cur : List Char) : List Char → List (List Char)
  | [] => if cur.isEmpty then [] else [cur.reverse]
  | c :: rest =>
    if c.isDigit then digit_runs_aux (c :: cur) rest
    else if cur.isEmpty then digit_runs_aux [] rest
    else cur.reverse :: digit_runs_aux [] rest

/-- Digits read as a base-ten number. -/
def charsToNat (l : List Char) : Nat := l.foldl (fun acc c => 10 * acc + (c.toNat - 48)) 0

/-- Modelled from the spec: the 4-digit years mentioned in the transcript,
in order of mention, for the year-reconciliation step missing from
template.py. -/
def four_digit_years (transcript : String) : List Nat :=
  ((digit_runs_aux [] transcript.data).filter (fun r => r.length == 4)).map charsToNat

/-- Modelled from the spec: the reconciliation target year, "latest match
wins", falling back to the current year when the transcript mentions no
4-digit year. -/
def last_mentioned_year (transcript : String) (currentYear : Nat) : Nat :=
  match (four_digit_years transcript).getLast? with
  | some y => y
  | none => currentYear

/-- Splitting a character list on a separator character. -/
def split_on_char (sep : Char) : List Char → List (List Char)
  | [] => [[]]
  | c :: rest =>
    let r := split_on_char sep rest
    if c = sep then [] :: r
    else
      match r with
      | [] => [[c]]
      | h :: t => (c :: h) :: t

/-- All characters are decimal digits. -/
def all_digits (l : List Char) : Bool := l.all Char.isDigit

/-- Modelled from the spec: reading an extracted date in DD/MM/YYYY shape
as day, month and year numbers; anything else does not parse. -/
def parse_date (s : String) : Option (Nat × Nat × Nat) :=
  match split_on_char '/' s.data with
  | [d, m, y] =>
    if (!d.isEmpty && all_digits d) && ((!m.isEmpty && all_digits m) &&
        (!y.isEmpty && all_digits y)) then
      some (charsToNat d, charsToNat m, charsToNat y)
    else none
  | _ => none

/-- Gregorian leap years. -/
def is_leap (y : Nat) : Bool := (y % 4 == 0 && y % 100 != 0) || y % 400 == 0

/-- Days of a Gregorian month. -/
def days_in_month (m y : Nat) : Nat :=
  if m == 2 then (if is_leap y then 29 else 28)
  else if m == 4 || m == 6 || m == 9 || m == 11 then 30
  else 31

/-- Gregorian calendar validity of a day/month/year combination. -/
def valid_date (d m y : Nat) : Bool :=
  (decide (1 ≤ m) && decide (m ≤ 12)) &&
    (decide (1 ≤ d) && decide (d ≤ days_in_month m y))

/-- Modelled from the spec: the year-reconciliation step for the
discovered date, absent from src/backend/app/services/template.py and
described by the spec for incident-focused variants: re-date the extracted
day and month onto the last 4-digit year mentioned in the transcript (or
the current year), and silently discard the rewrite when the recombined
date is invalid, keeping the originally extracted date. -/
def reconcile_discovered_date (transcript extracted : String) (currentYear : Nat) : String :=
  match parse_date extracted with
  | none => extracted
  | some (d, m, _) =>
    let y := last_mentioned_year transcript currentYear
    if valid_date d m y then pad2 d ++ "/" ++ pad2 m ++ "/" ++ pad4 y
    else extracted

/-- Claim C5 (settled against the spec-modelled definition): the
reconciliation of an extracted discovered date re-dates its day and month
onto the last 4-digit year mentioned in the transcript when one exists,
otherwise onto the current year, and silently keeps the originally
extracted date whenever the recombined date is invalid. -/
theorem c5_year_reconciliation (transcript extracted : String)
    (currentYear d m y : Nat)
    (hparse : parse_date extracted = some (d, m, y)) :
    (∀ y', (four_digit_years transcript).getLast? = some y' →
      (valid_date d m y' = true →
        reconcile_discovered_date transcript extracted currentYear =
          pad2 d ++ "/" ++ pad2 m ++ "/" ++ pad4 y') ∧
      (valid_date d m y' = false →
        reconcile_discovered_date transcript extracted currentYear = extracted)) ∧
    ((four_digit_years transcript).getLast? = none →
      (valid_date d m currentYear = true →
        reconcile_discovered_date transcript extracted currentYear =
          pad2 d ++ "/" ++ pad2 m ++ "/" ++ pad4 currentYear) ∧
      (valid_date d m currentYear = false →
        reconcile_discovered_date transcript extracted currentYear = extracted)) := by
  unfold reconcile_discovered_date
  rw [hparse]
  constructor
  · intro y' hy'
    have hlast : last_mentioned_year transcript currentYear = y' := by
      rw [last_mentioned_year, hy']
    refine ⟨fun hv => ?_, fun hv => ?_⟩ <;> simp [hlast, hv]
  · intro hnone
    have hlast : last_mentioned_year transcript currentYear = currentYear := by
      rw [last_mentioned_year, hnone]
    refine ⟨fun hv => ?_, fun hv => ?_⟩ <;> simp [hlast, hv]

/-- Claim C5, concrete instantiation: with two years mentioned, the last
one (2023) wins and the extracted date 05/03/2020 becomes 05/03/2023;
recombining 29/02 with the non-leap year 2023 is invalid, so the
originally extracted date 29/02/2020 is kept unchanged. -/
theorem c5_year_reconciliation_witness :
    reconcile_discovered_date "incident signalé en 2021 puis confirmé en 2023"
      "05/03/2020" 2025 = "05/03/2023" ∧
    reconcile_discovered_date "incident confirmé en 2023" "29/02/2020" 2025 =
      "29/02/2020" := by
  have h1 := (c5_year_reconciliation "incident signalé en 2021 puis confirmé en 2023"
    "05/03/2020" 2025 5 3 2020 (by decide)).1 2023 (by decide)
  have h2 := (c5_year_reconciliation "incident confirmé en 2023"
    "29/02/2020" 2025 29 2 2020 (by decide)).1 2023 (by decide)
  exact ⟨(h1.1 (by decide)).trans (by decide), h2.2 (by decide)⟩
